import Mathlib

/-!
Verification of the fund-services-architect debt-scanner backend.

The definitions below are a shallow embedding of the Python sources:
* `src/backend/gitlab_debt_scanner_agent.py` — `DebtScoreCalculator`
  (`calculate_debt_score` and the four category scorers),
  `GitLabDebtScannerAgent._get_risk_level`,
  `CodeAnalyzer._analyze_file_structure`,
  `InfrastructureAnalyzer._analyze_cicd`,
  `OperationalAnalyzer._analyze_team_collaboration`;
* `src/backend/api_server.py` — `_get_risk_level_from_score`;
* `src/enhanced_java_dotnet.py` — `EnhancedCodeAnalyzer._analyze_file_structure`.

Python floats are modelled by `ℚ` (all literals in the sources are decimal and
all arithmetic is exact on the inputs considered), Python dict entries that may
be absent by `Option`, with `Option.getD` playing the role of `dict.get(key,
default)`.
-/

/-! ## Risk level (`GitLabDebtScannerAgent._get_risk_level`, lines 1160-1169,
and `api_server._get_risk_level_from_score`, lines 41-50) -/

/-- `GitLabDebtScannerAgent._get_risk_level`: convert debt score to risk level. -/
def get_risk_level (score : ℚ) : String :=
  if score ≤ 1.0 then "Low"
  else if score ≤ 2.0 then "Medium"
  else if score ≤ 3.0 then "High"
  else "Critical"

/-- `api_server._get_risk_level_from_score`: identical body in `api_server.py`. -/
def get_risk_level_from_score (score : ℚ) : String :=
  if score ≤ 1.0 then "Low"
  else if score ≤ 2.0 then "Medium"
  else if score ≤ 3.0 then "High"
  else "Critical"

/-- Rank of a risk-level name in the order Low < Medium < High < Critical
(spec-level ordering used to state monotonicity). -/
def riskRank (level : String) : Nat :=
  if level = "Low" then 0
  else if level = "Medium" then 1
  else if level = "High" then 2
  else 3

/-! ## Metrics records

Each category scorer receives a Python `Dict[str, Any]`; the fields the scorer
reads are modelled as `Option` fields (a missing dict key is `none`). -/

/-- Fields of the `code_analysis` metrics dict read by
`DebtScoreCalculator._calculate_code_quality_score`. -/
structure CodeMetrics where
  test_to_code_ratio : Option ℚ := none
  avg_lines_per_file : Option ℚ := none
  large_files_count : Option ℚ := none
  code_files : Option ℚ := none
  deep_nesting_files : Option ℚ := none
  python_flake8_issues : Option ℚ := none
  code_documentation_ratio : Option ℚ := none

/-- Fields of the `architecture_analysis` metrics dict read by
`DebtScoreCalculator._calculate_architecture_score`. -/
structure ArchMetrics where
  max_directory_depth : Option ℚ := none
  has_mvc_pattern : Option Bool := none
  has_layered_pattern : Option Bool := none
  has_microservices_pattern : Option Bool := none
  has_clean_architecture_pattern : Option Bool := none
  has_docker_config : Option Bool := none
  has_kubernetes_config : Option Bool := none
  has_api_specifications : Option Bool := none
  has_readme : Option Bool := none
  readme_length : Option ℚ := none
  documentation_files : Option ℚ := none

/-- Fields of the `infrastructure_analysis` metrics dict read by
`DebtScoreCalculator._calculate_infrastructure_score`. -/
structure InfraMetrics where
  has_cicd_config : Option Bool := none
  pipeline_success_rate : Option ℚ := none
  potential_hardcoded_secrets : Option ℚ := none
  has_gitignore : Option Bool := none
  is_containerized : Option Bool := none
  has_prometheus_config : Option Bool := none
  has_grafana_config : Option Bool := none
  has_elasticsearch_config : Option Bool := none
  logging_usage_ratio : Option ℚ := none

/-- Fields of the `operations_analysis` metrics dict read by
`DebtScoreCalculator._calculate_operations_score`. -/
structure OpsMetrics where
  commits_per_week : Option ℚ := none
  deployments_per_week : Option ℚ := none
  maintenance_commit_percentage : Option ℚ := none
  unique_contributors : Option ℚ := none
  contribution_gini_coefficient : Option ℚ := none
  deployment_regularity : Option ℚ := none

/-- The metrics dict handed to `calculate_debt_score` (each sub-dict may be
missing, in which case Python substitutes `{}`; quantifying over arbitrary
sub-records covers that case since `{}` is the all-`none` record). -/
structure Metrics where
  code_analysis : CodeMetrics := {}
  architecture_analysis : ArchMetrics := {}
  infrastructure_analysis : InfraMetrics := {}
  operations_analysis : OpsMetrics := {}

/-- The `DebtMetrics` dataclass (score fields only; `raw_metrics` is the input
and carries no information for the claims). -/
structure DebtMetrics where
  code_quality_score : ℚ
  architecture_score : ℚ
  infrastructure_score : ℚ
  operations_score : ℚ
  overall_score : ℚ

/-! ## `DebtScoreCalculator._calculate_code_quality_score` (lines 875-925)

Each `score +=` block of the Python function is one definition below; the
increments are independent of the running score, so the function is exactly
the capped sum of the blocks. -/

/-- Test coverage penalty block. -/
def testCoveragePenalty (m : CodeMetrics) : ℚ :=
  let test_ratio := m.test_to_code_ratio.getD 0
  if test_ratio < 0.1 then 1.5
  else if test_ratio < 0.3 then 1.0
  else if test_ratio < 0.5 then 0.5
  else 0

/-- File size penalty block. -/
def fileSizePenalty (m : CodeMetrics) : ℚ :=
  let avg_lines := m.avg_lines_per_file.getD 0
  if avg_lines > 500 then 1.0
  else if avg_lines > 300 then 0.5
  else 0

/-- Large files penalty block (`total_files = max(metrics.get('code_files', 1), 1)`). -/
def largeFilesPenalty (m : CodeMetrics) : ℚ :=
  let large_files := m.large_files_count.getD 0
  let total_files := max (m.code_files.getD 1) 1
  let large_file_ratio := large_files / total_files
  if large_file_ratio > 0.3 then 1.0
  else if large_file_ratio > 0.1 then 0.5
  else 0

/-- Deep nesting penalty block. -/
def deepNestingPenalty (m : CodeMetrics) : ℚ :=
  let deep_nesting := m.deep_nesting_files.getD 0
  let total_files := max (m.code_files.getD 1) 1
  let deep_nesting_ratio := deep_nesting / total_files
  if deep_nesting_ratio > 0.2 then 0.5 else 0

/-- Language-specific penalty block (`if 'python_flake8_issues' in metrics and
metrics['python_flake8_issues'] > 0`). -/
def flake8Penalty (m : CodeMetrics) : ℚ :=
  match m.python_flake8_issues with
  | none => 0
  | some issues =>
    if issues > 0 then
      let total_files := max (m.code_files.getD 1) 1
      let issues_per_file := issues / total_files
      if issues_per_file > 5 then 1.0
      else if issues_per_file > 2 then 0.5
      else 0
    else 0

/-- Documentation penalty block. -/
def docPenalty (m : CodeMetrics) : ℚ :=
  let doc_ratio := m.code_documentation_ratio.getD 1.0
  if doc_ratio < 0.2 then 1.0
  else if doc_ratio < 0.5 then 0.5
  else 0

/-- `DebtScoreCalculator._calculate_code_quality_score`: sum of the penalty
blocks, capped at 4.0 by the final `min(score, 4.0)`. -/
def calculate_code_quality_score (m : CodeMetrics) : ℚ :=
  min (testCoveragePenalty m + fileSizePenalty m + largeFilesPenalty m +
       deepNestingPenalty m + flake8Penalty m + docPenalty m) 4.0

/-! ## `DebtScoreCalculator._calculate_architecture_score` (lines 927-960) -/

/-- Directory depth penalty block. -/
def depthPenalty (m : ArchMetrics) : ℚ :=
  let max_depth := m.max_directory_depth.getD 0
  if max_depth > 8 then 1.0
  else if max_depth > 6 then 0.5
  else 0

/-- Lack-of-architectural-patterns penalty block. -/
def patternPenalty (m : ArchMetrics) : ℚ :=
  let has_pattern := m.has_mvc_pattern.getD false || m.has_layered_pattern.getD false ||
    m.has_microservices_pattern.getD false || m.has_clean_architecture_pattern.getD false
  if !has_pattern then 1.0 else 0

/-- Configuration management penalty block. -/
def configMgmtPenalty (m : ArchMetrics) : ℚ :=
  if !(m.has_docker_config.getD false) && !(m.has_kubernetes_config.getD false) then 0.5 else 0

/-- API documentation penalty block. -/
def apiDocPenalty (m : ArchMetrics) : ℚ :=
  if !(m.has_api_specifications.getD false) then 0.5 else 0

/-- Documentation quality penalty block (README). -/
def readmePenalty (m : ArchMetrics) : ℚ :=
  if !(m.has_readme.getD false) then 1.0
  else if m.readme_length.getD 0 < 500 then 0.5
  else 0

/-- Documentation files penalty block. -/
def docFilesPenalty (m : ArchMetrics) : ℚ :=
  if m.documentation_files.getD 0 < 2 then 0.5 else 0

/-- `DebtScoreCalculator._calculate_architecture_score`. -/
def calculate_architecture_score (m : ArchMetrics) : ℚ :=
  min (depthPenalty m + patternPenalty m + configMgmtPenalty m + apiDocPenalty m +
       readmePenalty m + docFilesPenalty m) 4.0

/-! ## `DebtScoreCalculator._calculate_infrastructure_score` (lines 962-997) -/

/-- CI/CD setup penalty block: +2.0 without CI/CD config, otherwise a penalty
from `metrics.get('pipeline_success_rate', 1.0)`. -/
def cicdPenalty (m : InfraMetrics) : ℚ :=
  if !(m.has_cicd_config.getD false) then 2.0
  else
    let success_rate := m.pipeline_success_rate.getD 1.0
    if success_rate < 0.7 then 1.5
    else if success_rate < 0.9 then 0.5
    else 0

/-- Security issues penalty block (`min(potential_secrets * 0.5, 2.0)`). -/
def secretsPenalty (m : InfraMetrics) : ℚ :=
  let potential_secrets := m.potential_hardcoded_secrets.getD 0
  if potential_secrets > 0 then min (potential_secrets * 0.5) 2.0 else 0

/-- `.gitignore` penalty block. -/
def gitignorePenalty (m : InfraMetrics) : ℚ :=
  if !(m.has_gitignore.getD false) then 0.5 else 0

/-- Containerization penalty block. -/
def containerPenalty (m : InfraMetrics) : ℚ :=
  if !(m.is_containerized.getD false) then 1.0 else 0

/-- Monitoring setup penalty block. -/
def monitoringPenalty (m : InfraMetrics) : ℚ :=
  let has_monitoring := m.has_prometheus_config.getD false || m.has_grafana_config.getD false ||
    m.has_elasticsearch_config.getD false
  if !has_monitoring then 1.0 else 0

/-- Logging usage penalty block. -/
def loggingPenalty (m : InfraMetrics) : ℚ :=
  if m.logging_usage_ratio.getD 0 < 0.3 then 0.5 else 0

/-- `DebtScoreCalculator._calculate_infrastructure_score`. -/
def calculate_infrastructure_score (m : InfraMetrics) : ℚ :=
  min (cicdPenalty m + secretsPenalty m + gitignorePenalty m + containerPenalty m +
       monitoringPenalty m + loggingPenalty m) 4.0

/-! ## `DebtScoreCalculator._calculate_operations_score` (lines 999-1040) -/

/-- Development velocity penalty block. -/
def velocityPenalty (m : OpsMetrics) : ℚ :=
  let commits_per_week := m.commits_per_week.getD 0
  if commits_per_week < 1 then 1.5
  else if commits_per_week < 3 then 0.5
  else 0

/-- Deployment frequency penalty block. -/
def deployFreqPenalty (m : OpsMetrics) : ℚ :=
  let deployments_per_week := m.deployments_per_week.getD 0
  if deployments_per_week < 0.25 then 1.5
  else if deployments_per_week < 1 then 1.0
  else 0

/-- Maintenance burden penalty block, with the branches in the source's
`if/elif` order: `> 60`, then `> 40`, then `> 70`. -/
def maintenanceBurdenPenalty (m : OpsMetrics) : ℚ :=
  let maintenance_percentage := m.maintenance_commit_percentage.getD 0
  if maintenance_percentage > 60 then 1.5
  else if maintenance_percentage > 40 then 1.0
  else if maintenance_percentage > 70 then 2.0
  else 0

/-- Team collaboration penalty block (single contributor risk). -/
def contributorsPenalty (m : OpsMetrics) : ℚ :=
  if m.unique_contributors.getD 1 = 1 then 1.0 else 0

/-- Contribution inequality penalty block. -/
def giniPenalty (m : OpsMetrics) : ℚ :=
  if m.contribution_gini_coefficient.getD 0 > 0.8 then 0.5 else 0

/-- Deployment regularity penalty block. -/
def regularityPenalty (m : OpsMetrics) : ℚ :=
  if m.deployment_regularity.getD 0 > 14 then 0.5 else 0

/-- `DebtScoreCalculator._calculate_operations_score`. -/
def calculate_operations_score (m : OpsMetrics) : ℚ :=
  min (velocityPenalty m + deployFreqPenalty m + maintenanceBurdenPenalty m +
       contributorsPenalty m + giniPenalty m + regularityPenalty m) 4.0

/-! ## `DebtScoreCalculator.calculate_debt_score` (lines 849-873) -/

/-- Category weights from `DebtScoreCalculator.__init__`. -/
def weight_code_quality : ℚ := 0.25

/-- Architecture weight. -/
def weight_architecture : ℚ := 0.30

/-- Infrastructure weight. -/
def weight_infrastructure : ℚ := 0.25

/-- Operations weight. -/
def weight_operations : ℚ := 0.20

/-- `DebtScoreCalculator.calculate_debt_score`: category scores plus the
weighted overall score. -/
def calculate_debt_score (m : Metrics) : DebtMetrics :=
  let code_score := calculate_code_quality_score m.code_analysis
  let arch_score := calculate_architecture_score m.architecture_analysis
  let infra_score := calculate_infrastructure_score m.infrastructure_analysis
  let ops_score := calculate_operations_score m.operations_analysis
  { code_quality_score := code_score
    architecture_score := arch_score
    infrastructure_score := infra_score
    operations_score := ops_score
    overall_score := code_score * weight_code_quality + arch_score * weight_architecture +
      infra_score * weight_infrastructure + ops_score * weight_operations }

/-! ## File-structure analyzers

`CodeAnalyzer._analyze_file_structure` (gitlab_debt_scanner_agent.py lines
178-221) and `EnhancedCodeAnalyzer._analyze_file_structure`
(enhanced_java_dotnet.py lines 1115-1160) walk the repository tree; the tree
is modelled as the list of its files, each with its path string and its line
count (reads are assumed to succeed; the `try/except` only skips unreadable
files). -/

/-- A file of the scanned tree: its path (as `str(file_path)`) and the number
of lines `len(f.readlines())` returns. -/
structure FileEntry where
  path : String
  lines : Nat

/-- Auxiliary: does `pat` occur as a contiguous sublist of the second list?
(Python `pat in s` on strings.) -/
def subListAux (pat : List Char) : List Char → Bool
  | [] => pat.isEmpty
  | c :: rest => pat.isPrefixOf (c :: rest) || subListAux pat rest

/-- Python substring containment `pat in s`. -/
def strContainsSub (s pat : String) : Bool :=
  subListAux pat.toList s.toList

/-- Split a character list at every occurrence of `sep` (the pieces, in
order, without the separators). -/
def splitOnChar (sep : Char) : List Char → List (List Char)
  | [] => [[]]
  | c :: rest =>
    let r := splitOnChar sep rest
    if c = sep then [] :: r
    else
      match r with
      | [] => [[c]]
      | h :: t => (c :: h) :: t

/-- Python `str.lower()` (ASCII case folding suffices for the paths and
patterns involved). -/
def strLower (s : String) : String :=
  String.mk (s.toList.map Char.toLower)

/-- Python `pathlib.Path(p).suffix`: the final extension (with its dot) of the
last path component, empty for dotless or purely-hidden names. -/
def pathSuffix (p : String) : String :=
  let name := (splitOnChar '/' p.toList).getLastD []
  let parts := splitOnChar '.' name
  if parts.length ≥ 2 ∧ ¬(parts.length = 2 ∧ parts.headD [] = []) then
    String.mk ('.' :: parts.getLastD [])
  else ""

/-- Counters accumulated by the `for file_path in repo_path.rglob('*')` loop. -/
structure FsCounts where
  total_files : Nat := 0
  code_files : Nat := 0
  test_files : Nat := 0
  config_files : Nat := 0
  total_lines : Nat := 0

/-- One iteration of the scanning loop, shared by the two analyzer variants
(they differ only in their extension/pattern/ignore sets and in whether the
test-pattern check lowercases the path first). -/
def fileStructureStep (codeExts testPats cfgExts ignores : List String)
    (lowerTestCheck : Bool) (c : FsCounts) (f : FileEntry) : FsCounts :=
  if ignores.any (fun s => strContainsSub f.path s) then c
  else
    let c1 : FsCounts := { c with total_files := c.total_files + 1 }
    if codeExts.contains (pathSuffix f.path) then
      let c2 : FsCounts := { c1 with
        code_files := c1.code_files + 1
        total_lines := c1.total_lines + f.lines }
      let checkStr := if lowerTestCheck then strLower f.path else f.path
      if testPats.any (fun p => strContainsSub checkStr p) then
        { c2 with test_files := c2.test_files + 1 }
      else c2
    else if cfgExts.contains (pathSuffix f.path) then
      { c1 with config_files := c1.config_files + 1 }
    else c1

/-- `code_extensions` of `CodeAnalyzer._analyze_file_structure`. -/
def codeExtensionsA : List String :=
  [".py", ".js", ".ts", ".java", ".cpp", ".c", ".cs", ".rb", ".go", ".php"]

/-- `test_patterns` of `CodeAnalyzer._analyze_file_structure` (checked against
`str(file_path).lower()`). -/
def testPatternsA : List String :=
  ["test_", "_test", ".test.", ".spec.", "/tests/", "/test/"]

/-- `config_extensions` of `CodeAnalyzer._analyze_file_structure`. -/
def configExtensionsA : List String :=
  [".yml", ".yaml", ".json", ".xml", ".toml", ".ini", ".cfg"]

/-- Ignore substrings of `CodeAnalyzer._analyze_file_structure`. -/
def ignoresA : List String := [".git", "node_modules", "__pycache__"]

/-- `code_extensions` of `EnhancedCodeAnalyzer._analyze_file_structure`. -/
def codeExtensionsB : List String :=
  [".py", ".js", ".ts", ".java", ".cs", ".cpp", ".c", ".rb", ".go", ".php", ".scala", ".kt"]

/-- `test_patterns` of `EnhancedCodeAnalyzer._analyze_file_structure` (checked
against `str(file_path)` without lowercasing). -/
def testPatternsB : List String :=
  ["test_", "_test", ".test.", ".spec.", "/tests/", "/test/", "Test.java", "Tests.cs"]

/-- `config_extensions` of `EnhancedCodeAnalyzer._analyze_file_structure`. -/
def configExtensionsB : List String :=
  [".yml", ".yaml", ".json", ".xml", ".toml", ".ini", ".cfg", ".properties"]

/-- Ignore substrings of `EnhancedCodeAnalyzer._analyze_file_structure`. -/
def ignoresB : List String := [".git", "node_modules", "__pycache__", "bin/", "obj/"]

/-- The metrics dict built at the end of either `_analyze_file_structure`. -/
structure FsMetrics where
  total_files : Nat
  code_files : Nat
  test_files : Nat
  config_files : Nat
  total_lines_of_code : Nat
  test_to_code_ratio : ℚ
  avg_lines_per_file : ℚ

/-- `CodeAnalyzer._analyze_file_structure`: scan the tree, then derive
`test_to_code_ratio = test_files / max(code_files, 1)` and
`avg_lines_per_file = total_lines / max(code_files, 1)`. -/
def analyze_file_structure (files : List FileEntry) : FsMetrics :=
  let c := files.foldl
    (fileStructureStep codeExtensionsA testPatternsA configExtensionsA ignoresA true) {}
  { total_files := c.total_files
    code_files := c.code_files
    test_files := c.test_files
    config_files := c.config_files
    total_lines_of_code := c.total_lines
    test_to_code_ratio := (c.test_files : ℚ) / ((max c.code_files 1 : ℕ) : ℚ)
    avg_lines_per_file := (c.total_lines : ℚ) / ((max c.code_files 1 : ℕ) : ℚ) }

/-- `EnhancedCodeAnalyzer._analyze_file_structure`: same scan shape with its
own sets, and `test_to_code_ratio = test_files / max(code_files - test_files, 1)`
(Python integer subtraction, hence the `ℤ` cast). -/
def enhanced_analyze_file_structure (files : List FileEntry) : FsMetrics :=
  let c := files.foldl
    (fileStructureStep codeExtensionsB testPatternsB configExtensionsB ignoresB false) {}
  { total_files := c.total_files
    code_files := c.code_files
    test_files := c.test_files
    config_files := c.config_files
    total_lines_of_code := c.total_lines
    test_to_code_ratio :=
      (c.test_files : ℚ) / ((max ((c.code_files : ℤ) - (c.test_files : ℤ)) 1 : ℤ) : ℚ)
    avg_lines_per_file := (c.total_lines : ℚ) / ((max c.code_files 1 : ℕ) : ℚ) }

/-! ## `InfrastructureAnalyzer._analyze_cicd` (lines 553-583)

The filesystem glob for CI configuration files is modelled by the number of
matches it returns; the pipeline records carry the fields the function reads. -/

/-- A GitLab pipeline record (the fields `_analyze_cicd` reads). -/
structure Pipeline where
  status : String := ""
  duration : Option ℚ := none

/-- The metrics dict `_analyze_cicd` returns: the CI-config fields are always
set, the pipeline-derived fields only when the pipeline list is non-empty
(`if pipelines:`). -/
structure CicdMetrics where
  has_cicd_config : Bool
  cicd_config_count : Nat
  pipeline_success_rate : Option ℚ := none
  pipeline_failure_rate : Option ℚ := none
  recent_pipeline_count : Option Nat := none
  avg_pipeline_duration : Option ℚ := none

/-- `InfrastructureAnalyzer._analyze_cicd`. -/
def analyze_cicd (ciFileCount : Nat) (pipelines : List Pipeline) : CicdMetrics :=
  let base : CicdMetrics :=
    { has_cicd_config := decide (ciFileCount > 0), cicd_config_count := ciFileCount }
  if pipelines.isEmpty then base
  else
    let successful := (pipelines.filter (fun p => p.status == "success")).length
    let failed := (pipelines.filter (fun p => p.status == "failed")).length
    let total := pipelines.length
    let durations := pipelines.filterMap (fun p =>
      match p.duration with
      | some d => if d ≠ 0 then some d else none
      | none => none)
    { base with
      pipeline_success_rate := some ((successful : ℚ) / ((max total 1 : ℕ) : ℚ))
      pipeline_failure_rate := some ((failed : ℚ) / ((max total 1 : ℕ) : ℚ))
      recent_pipeline_count := some total
      avg_pipeline_duration :=
        if durations.isEmpty then none
        else some (durations.sum / (durations.length : ℚ)) }

/-! ## `OperationalAnalyzer._analyze_team_collaboration` (lines 770-801) -/

/-- Ascending insertion into a sorted list (Python `list.sort()` sorts
ascending; only the resulting sorted order matters). -/
def insertSorted (x : Nat) : List Nat → List Nat
  | [] => [x]
  | y :: t => if x ≤ y then x :: y :: t else y :: insertSorted x t

/-- Ascending sort of a list of naturals. -/
def sortAsc (l : List Nat) : List Nat :=
  l.foldr insertSorted []

/-- The Gini computation of `_analyze_team_collaboration` exactly as coded:
`commit_counts.sort(); n = len; cumsum = sum((2*i+1)*commit_counts[i] for i
in range(n)); gini = cumsum / (n * sum(commit_counts)) - (n + 1) / n`. -/
def giniOfCounts (counts : List Nat) : ℚ :=
  let sorted := sortAsc counts
  let n := sorted.length
  let cumsum : Nat := (sorted.enum.map (fun p => (2 * p.1 + 1) * p.2)).sum
  (cumsum : ℚ) / ((n : ℚ) * (sorted.sum : ℚ)) - ((n : ℚ) + 1) / (n : ℚ)

/-- The metrics dict `_analyze_team_collaboration` returns. -/
structure CollabMetrics where
  unique_contributors : Option Nat := none
  contribution_gini_coefficient : Option ℚ := none

/-- `OperationalAnalyzer._analyze_team_collaboration`: each commit is its
optional `author_email`; contributors are the distinct present emails, the
per-contributor commit counts are the multiplicities of
`commit.get('author_email', 'unknown')`. -/
def analyze_team_collaboration (commits : List (Option String)) : CollabMetrics :=
  if commits.isEmpty then {}
  else
    let contributors := (commits.filterMap id).dedup
    let uniqueCount := contributors.length
    if 1 < uniqueCount then
      let emails := commits.map (fun c => c.getD "unknown")
      let counts := emails.dedup.map (fun k => emails.count k)
      if 1 < counts.length then
        { unique_contributors := some uniqueCount
          contribution_gini_coefficient := some (giniOfCounts counts) }
      else { unique_contributors := some uniqueCount }
    else { unique_contributors := some uniqueCount }

/-! ## Nonnegativity of the penalty blocks -/

lemma testCoveragePenalty_nonneg (m : CodeMetrics) : 0 ≤ testCoveragePenalty m := by
  unfold testCoveragePenalty; dsimp only; split_ifs <;> norm_num

lemma fileSizePenalty_nonneg (m : CodeMetrics) : 0 ≤ fileSizePenalty m := by
  unfold fileSizePenalty; dsimp only; split_ifs <;> norm_num

lemma largeFilesPenalty_nonneg (m : CodeMetrics) : 0 ≤ largeFilesPenalty m := by
  unfold largeFilesPenalty; dsimp only; split_ifs <;> norm_num

lemma deepNestingPenalty_nonneg (m : CodeMetrics) : 0 ≤ deepNestingPenalty m := by
  unfold deepNestingPenalty; dsimp only; split_ifs <;> norm_num

lemma flake8Penalty_nonneg (m : CodeMetrics) : 0 ≤ flake8Penalty m := by
  unfold flake8Penalty
  cases m.python_flake8_issues with
  | none => norm_num
  | some v => dsimp only; split_ifs <;> norm_num

lemma docPenalty_nonneg (m : CodeMetrics) : 0 ≤ docPenalty m := by
  unfold docPenalty; dsimp only; split_ifs <;> norm_num

lemma depthPenalty_nonneg (m : ArchMetrics) : 0 ≤ depthPenalty m := by
  unfold depthPenalty; dsimp only; split_ifs <;> norm_num

lemma patternPenalty_nonneg (m : ArchMetrics) : 0 ≤ patternPenalty m := by
  unfold patternPenalty; dsimp only; split_ifs <;> norm_num

lemma configMgmtPenalty_nonneg (m : ArchMetrics) : 0 ≤ configMgmtPenalty m := by
  unfold configMgmtPenalty; split_ifs <;> norm_num

lemma apiDocPenalty_nonneg (m : ArchMetrics) : 0 ≤ apiDocPenalty m := by
  unfold apiDocPenalty; split_ifs <;> norm_num

lemma readmePenalty_nonneg (m : ArchMetrics) : 0 ≤ readmePenalty m := by
  unfold readmePenalty; split_ifs <;> norm_num

lemma docFilesPenalty_nonneg (m : ArchMetrics) : 0 ≤ docFilesPenalty m := by
  unfold docFilesPenalty; split_ifs <;> norm_num

lemma cicdPenalty_nonneg (m : InfraMetrics) : 0 ≤ cicdPenalty m := by
  unfold cicdPenalty; dsimp only; split_ifs <;> norm_num

lemma secretsPenalty_nonneg (m : InfraMetrics) : 0 ≤ secretsPenalty m := by
  unfold secretsPenalty; dsimp only; split_ifs with h
  · exact le_min (by linarith) (by norm_num)
  · norm_num

lemma gitignorePenalty_nonneg (m : InfraMetrics) : 0 ≤ gitignorePenalty m := by
  unfold gitignorePenalty; split_ifs <;> norm_num

lemma containerPenalty_nonneg (m : InfraMetrics) : 0 ≤ containerPenalty m := by
  unfold containerPenalty; split_ifs <;> norm_num

lemma monitoringPenalty_nonneg (m : InfraMetrics) : 0 ≤ monitoringPenalty m := by
  unfold monitoringPenalty; dsimp only; split_ifs <;> norm_num

lemma loggingPenalty_nonneg (m : InfraMetrics) : 0 ≤ loggingPenalty m := by
  unfold loggingPenalty; split_ifs <;> norm_num

lemma velocityPenalty_nonneg (m : OpsMetrics) : 0 ≤ velocityPenalty m := by
  unfold velocityPenalty; dsimp only; split_ifs <;> norm_num

lemma deployFreqPenalty_nonneg (m : OpsMetrics) : 0 ≤ deployFreqPenalty m := by
  unfold deployFreqPenalty; dsimp only; split_ifs <;> norm_num

lemma maintenanceBurdenPenalty_nonneg (m : OpsMetrics) : 0 ≤ maintenanceBurdenPenalty m := by
  unfold maintenanceBurdenPenalty; dsimp only; split_ifs <;> norm_num

lemma contributorsPenalty_nonneg (m : OpsMetrics) : 0 ≤ contributorsPenalty m := by
  unfold contributorsPenalty; split_ifs <;> norm_num

lemma giniPenalty_nonneg (m : OpsMetrics) : 0 ≤ giniPenalty m := by
  unfold giniPenalty; split_ifs <;> norm_num

lemma regularityPenalty_nonneg (m : OpsMetrics) : 0 ≤ regularityPenalty m := by
  unfold regularityPenalty; split_ifs <;> norm_num

/-! ## Bounds of the category scorers -/

lemma calculate_code_quality_score_bounds (m : CodeMetrics) :
    0 ≤ calculate_code_quality_score m ∧ calculate_code_quality_score m ≤ 4 := by
  have h1 := testCoveragePenalty_nonneg m
  have h2 := fileSizePenalty_nonneg m
  have h3 := largeFilesPenalty_nonneg m
  have h4 := deepNestingPenalty_nonneg m
  have h5 := flake8Penalty_nonneg m
  have h6 := docPenalty_nonneg m
  unfold calculate_code_quality_score
  exact ⟨le_min (by linarith) (by norm_num), le_trans (min_le_right _ _) (by norm_num)⟩

lemma calculate_architecture_score_bounds (m : ArchMetrics) :
    0 ≤ calculate_architecture_score m ∧ calculate_architecture_score m ≤ 4 := by
  have h1 := depthPenalty_nonneg m
  have h2 := patternPenalty_nonneg m
  have h3 := configMgmtPenalty_nonneg m
  have h4 := apiDocPenalty_nonneg m
  have h5 := readmePenalty_nonneg m
  have h6 := docFilesPenalty_nonneg m
  unfold calculate_architecture_score
  exact ⟨le_min (by linarith) (by norm_num), le_trans (min_le_right _ _) (by norm_num)⟩

lemma calculate_infrastructure_score_bounds (m : InfraMetrics) :
    0 ≤ calculate_infrastructure_score m ∧ calculate_infrastructure_score m ≤ 4 := by
  have h1 := cicdPenalty_nonneg m
  have h2 := secretsPenalty_nonneg m
  have h3 := gitignorePenalty_nonneg m
  have h4 := containerPenalty_nonneg m
  have h5 := monitoringPenalty_nonneg m
  have h6 := loggingPenalty_nonneg m
  unfold calculate_infrastructure_score
  exact ⟨le_min (by linarith) (by norm_num), le_trans (min_le_right _ _) (by norm_num)⟩

lemma calculate_operations_score_bounds (m : OpsMetrics) :
    0 ≤ calculate_operations_score m ∧ calculate_operations_score m ≤ 4 := by
  have h1 := velocityPenalty_nonneg m
  have h2 := deployFreqPenalty_nonneg m
  have h3 := maintenanceBurdenPenalty_nonneg m
  have h4 := contributorsPenalty_nonneg m
  have h5 := giniPenalty_nonneg m
  have h6 := regularityPenalty_nonneg m
  unfold calculate_operations_score
  exact ⟨le_min (by linarith) (by norm_num), le_trans (min_le_right _ _) (by norm_num)⟩

/-- C1: for every metrics input, each of the four category scores returned by
`DebtScoreCalculator.calculate_debt_score` and the `overall_score` lie in the
closed interval [0.0, 4.0]. -/
theorem C1_all_scores_in_unit_interval (m : Metrics) :
    0 ≤ (calculate_debt_score m).code_quality_score ∧
      (calculate_debt_score m).code_quality_score ≤ 4 ∧
    0 ≤ (calculate_debt_score m).architecture_score ∧
      (calculate_debt_score m).architecture_score ≤ 4 ∧
    0 ≤ (calculate_debt_score m).infrastructure_score ∧
      (calculate_debt_score m).infrastructure_score ≤ 4 ∧
    0 ≤ (calculate_debt_score m).operations_score ∧
      (calculate_debt_score m).operations_score ≤ 4 ∧
    0 ≤ (calculate_debt_score m).overall_score ∧
      (calculate_debt_score m).overall_score ≤ 4 := by
  have hc := calculate_code_quality_score_bounds m.code_analysis
  have ha := calculate_architecture_score_bounds m.architecture_analysis
  have hi := calculate_infrastructure_score_bounds m.infrastructure_analysis
  have ho := calculate_operations_score_bounds m.operations_analysis
  unfold calculate_debt_score weight_code_quality weight_architecture
    weight_infrastructure weight_operations
  dsimp only
  refine ⟨hc.1, hc.2, ha.1, ha.2, hi.1, hi.2, ho.1, ho.2, ?_, ?_⟩
  · nlinarith [hc.1, ha.1, hi.1, ho.1]
  · nlinarith [hc.2, ha.2, hi.2, ho.2]

/-- C2: for every metrics input, the `overall_score` returned by
`DebtScoreCalculator.calculate_debt_score` equals
`code_quality_score * 0.25 + architecture_score * 0.30 +
infrastructure_score * 0.25 + operations_score * 0.20`, exactly (the
weights come from `DebtScoreCalculator.__init__` and sum to 1.0). -/
theorem C2_overall_is_weighted_sum (m : Metrics) :
    (calculate_debt_score m).overall_score =
      (calculate_debt_score m).code_quality_score * 0.25 +
      (calculate_debt_score m).architecture_score * 0.30 +
      (calculate_debt_score m).infrastructure_score * 0.25 +
      (calculate_debt_score m).operations_score * 0.20 ∧
    weight_code_quality + weight_architecture + weight_infrastructure + weight_operations = 1 :=
  ⟨rfl, by norm_num [weight_code_quality, weight_architecture, weight_infrastructure,
    weight_operations]⟩

/-- C3: the risk-level classification (`_get_risk_level`, and the identical
`_get_risk_level_from_score` of the API server) is a pure step function of
the overall score: scores ≤ 1.0 map to "Low", scores in (1.0, 2.0] to
"Medium", scores in (2.0, 3.0] to "High", scores > 3.0 to "Critical"; the
boundary values 1.0, 2.0, 3.0 map to the lower tier, and the classification
is monotone in the order Low < Medium < High < Critical. -/
theorem C3_risk_level_step_monotone (s t : ℚ) (hst : s ≤ t) :
    (s ≤ 1 → get_risk_level s = "Low") ∧
    (1 < s → s ≤ 2 → get_risk_level s = "Medium") ∧
    (2 < s → s ≤ 3 → get_risk_level s = "High") ∧
    (3 < s → get_risk_level s = "Critical") ∧
    get_risk_level 1 = "Low" ∧ get_risk_level 2 = "Medium" ∧ get_risk_level 3 = "High" ∧
    get_risk_level_from_score s = get_risk_level s ∧
    riskRank (get_risk_level s) ≤ riskRank (get_risk_level t) := by
  refine ⟨fun h => ?_, fun h1 h2 => ?_, fun h1 h2 => ?_, fun h => ?_,
    by norm_num [get_risk_level], by norm_num [get_risk_level], by norm_num [get_risk_level],
    rfl, ?_⟩
  · unfold get_risk_level; split_ifs <;> first | rfl | (exfalso; linarith)
  · unfold get_risk_level; split_ifs <;> first | rfl | (exfalso; linarith)
  · unfold get_risk_level; split_ifs <;> first | rfl | (exfalso; linarith)
  · unfold get_risk_level; split_ifs <;> first | rfl | (exfalso; linarith)
  · unfold get_risk_level
    split_ifs <;> first | decide | (exfalso; linarith)

/-- Witness for C3 at concrete scores: 0.5 → Low, 1.5 → Medium, 2.5 → High,
3.5 → Critical, and monotonicity at 0.5 ≤ 3.5. -/
theorem C3_witness :
    get_risk_level 0.5 = "Low" ∧ get_risk_level 1.5 = "Medium" ∧
    get_risk_level 2.5 = "High" ∧ get_risk_level 3.5 = "Critical" ∧
    riskRank (get_risk_level 0.5) ≤ riskRank (get_risk_level 3.5) := by
  have h := C3_risk_level_step_monotone 0.5 3.5 (by norm_num)
  have h2 := C3_risk_level_step_monotone 1.5 1.5 le_rfl
  have h3 := C3_risk_level_step_monotone 2.5 2.5 le_rfl
  have h4 := C3_risk_level_step_monotone 3.5 3.5 le_rfl
  exact ⟨h.1 (by norm_num), h2.2.1 (by norm_num) (by norm_num),
    h3.2.2.1 (by norm_num) (by norm_num), h4.2.2.2.1 (by norm_num),
    h.2.2.2.2.2.2.2.2⟩

/-- C4: in `_calculate_operations_score` the maintenance-burden branches
(`> 60`, then `> 40`, then `> 70` in `if/elif` order) overlap so that the
`+2.0` branch for percentages above 70 is unreachable: the penalty added is
1.5 whenever the percentage exceeds 60 (in particular whenever it exceeds
70), 1.0 on (40, 60], 0 otherwise, and it is never 2.0. -/
theorem C4_maintenance_dead_branch (m : OpsMetrics) :
    (60 < m.maintenance_commit_percentage.getD 0 → maintenanceBurdenPenalty m = 1.5) ∧
    (70 < m.maintenance_commit_percentage.getD 0 → maintenanceBurdenPenalty m = 1.5) ∧
    (40 < m.maintenance_commit_percentage.getD 0 → m.maintenance_commit_percentage.getD 0 ≤ 60 →
      maintenanceBurdenPenalty m = 1.0) ∧
    (m.maintenance_commit_percentage.getD 0 ≤ 40 → maintenanceBurdenPenalty m = 0) ∧
    maintenanceBurdenPenalty m ≠ 2.0 := by
  unfold maintenanceBurdenPenalty
  dsimp only
  refine ⟨fun h => ?_, fun h => ?_, fun h1 h2 => ?_, fun h => ?_, ?_⟩ <;>
    split_ifs <;> first | rfl | (exfalso; linarith) | norm_num

/-- Witness for C4: a 75% maintenance share is penalised 1.5 (not 2.0), a 50%
share 1.0, a 30% share 0. -/
theorem C4_witness :
    maintenanceBurdenPenalty { maintenance_commit_percentage := some 75 } = 1.5 ∧
    maintenanceBurdenPenalty { maintenance_commit_percentage := some 50 } = 1.0 ∧
    maintenanceBurdenPenalty { maintenance_commit_percentage := some 30 } = 0 := by
  refine ⟨(C4_maintenance_dead_branch _).2.1 ?_, (C4_maintenance_dead_branch _).2.2.1 ?_ ?_,
    (C4_maintenance_dead_branch _).2.2.2.1 ?_⟩ <;> norm_num [Option.getD]

/-! ## Concrete inputs for the Gini-coefficient and scorer evaluations -/

/-- Commits of five contributors with ten commits each: per-contributor
commit counts [10, 10, 10, 10, 10]. -/
def commitsEqual : List (Option String) :=
  List.replicate 10 (some "a") ++ List.replicate 10 (some "b") ++ List.replicate 10 (some "c") ++
    List.replicate 10 (some "d") ++ List.replicate 10 (some "e")

/-- Commits of five contributors with counts [1, 1, 1, 1, 100]. -/
def commitsSkewed : List (Option String) :=
  [some "a", some "b", some "c", some "d"] ++ List.replicate 100 (some "e")

/-- Evaluation lemma for `giniOfCounts`: reduce the natural-number list
computations first, leaving only the rational formula. -/
lemma giniOfCounts_eval (counts sorted : List ℕ) (c n s : ℕ)
    (h1 : sortAsc counts = sorted)
    (h2 : (sorted.enum.map (fun p => (2 * p.1 + 1) * p.2)).sum = c)
    (h3 : sorted.length = n) (h4 : sorted.sum = s) :
    giniOfCounts counts = (c : ℚ) / ((n : ℚ) * (s : ℚ)) - ((n : ℚ) + 1) / (n : ℚ) := by
  unfold giniOfCounts
  dsimp only
  rw [h1, h2, h3, h4]

/-- C5 (evaluation of the code at the spec's inputs): the Gini computation of
`_analyze_team_collaboration` yields −1/5 (not 0) on the perfectly equal
contributor counts [10, 10, 10, 10, 10], and 73/130 ≈ 0.5615 (not ≈ 0.8) on
[1, 1, 1, 1, 100]: the code's `(2*i+1)` weights are 0-indexed while the
`(n+1)/n` correction term assumes 1-indexed weights, so every result is the
standard Gini coefficient minus 1/n. -/
theorem C5_gini_formula_evaluation :
    (analyze_team_collaboration commitsEqual).contribution_gini_coefficient =
      some (giniOfCounts [10, 10, 10, 10, 10]) ∧
    giniOfCounts [10, 10, 10, 10, 10] = -(1/5) ∧
    (analyze_team_collaboration commitsSkewed).contribution_gini_coefficient =
      some (giniOfCounts [1, 1, 1, 1, 100]) ∧
    giniOfCounts [1, 1, 1, 1, 100] = 73/130 ∧
    (-(1/5) : ℚ) ≠ 0 ∧ (73/130 : ℚ) < 3/5 := by
  refine ⟨?_, ?_, ?_, ?_, by norm_num, by norm_num⟩
  · set_option maxRecDepth 10000 in exact rfl
  · rw [giniOfCounts_eval [10, 10, 10, 10, 10] [10, 10, 10, 10, 10] 250 5 50
      (by decide) (by decide) (by decide) (by decide)]
    norm_num
  · set_option maxRecDepth 40000 in exact rfl
  · rw [giniOfCounts_eval [1, 1, 1, 1, 100] [1, 1, 1, 1, 100] 916 5 104
      (by decide) (by decide) (by decide) (by decide)]
    norm_num

/-! ## C6: empty pipeline list -/

/-- An infrastructure metrics dict with CI/CD config present but no
`pipeline_success_rate` entry — what `_analyze_cicd` produces for a repo with
CI config when the supplied pipeline list is empty. -/
def infraNoRate : InfraMetrics := { has_cicd_config := some true, pipeline_success_rate := none }

/-- C6 counterexample: with an empty pipeline list, `_analyze_cicd` does not
set `pipeline_success_rate` at all (it is absent, not 0), and downstream
scoring (`_calculate_infrastructure_score`) substitutes the default 1.0 — a
defaulted-high value, under which the success-rate penalty is 0 rather than
the 1.5 that a rate of 0 would incur. -/
theorem C6_counterexample :
    (analyze_cicd 1 []).pipeline_success_rate = none ∧
    (analyze_cicd 1 []).pipeline_success_rate ≠ some 0 ∧
    infraNoRate.pipeline_success_rate.getD 1.0 = 1.0 ∧
    cicdPenalty infraNoRate = 0 ∧ (0 : ℚ) < 1.0 ∧ cicdPenalty infraNoRate ≠ 1.5 := by
  refine ⟨rfl, ?_, rfl, ?_, by norm_num, ?_⟩
  · rw [show (analyze_cicd 1 []).pipeline_success_rate = none from rfl]
    simp
  · unfold cicdPenalty infraNoRate; norm_num
  · unfold cicdPenalty infraNoRate; norm_num

/-- C6 amended: when the supplied pipeline list is empty the analysis still
returns a metrics map (with `has_cicd_config` and `cicd_config_count` set),
but the derived `pipeline_success_rate` metric is omitted rather than set to
0, and downstream scoring sees the defaulted value 1.0, under which the
success-rate penalty is 0. -/
theorem C6_empty_pipelines_amended (ciFileCount : Nat) (m : InfraMetrics)
    (hrate : m.pipeline_success_rate = none) (hcfg : m.has_cicd_config = some true) :
    (analyze_cicd ciFileCount []).pipeline_success_rate = none ∧
    (analyze_cicd ciFileCount []).has_cicd_config = decide (ciFileCount > 0) ∧
    (analyze_cicd ciFileCount []).cicd_config_count = ciFileCount ∧
    m.pipeline_success_rate.getD 1.0 = 1.0 ∧
    cicdPenalty m = 0 := by
  refine ⟨rfl, rfl, rfl, by rw [hrate]; exact rfl, ?_⟩
  unfold cicdPenalty
  rw [hrate, hcfg]
  norm_num

/-- Witness for C6 at a concrete input: one CI config file, empty pipelines. -/
theorem C6_witness :
    (analyze_cicd 1 []).pipeline_success_rate = none ∧ cicdPenalty infraNoRate = 0 := by
  have h := C6_empty_pipelines_amended 1 infraNoRate rfl rfl
  exact ⟨h.1, h.2.2.2.2⟩

/-! ## C7: zero test files and 1000-line average file size -/

/-- The code-analysis metrics dict with `test_to_code_ratio = 0` and
`avg_lines_per_file = 1000` and no other entries. -/
def codeMetricsZeroTests : CodeMetrics :=
  { test_to_code_ratio := some 0, avg_lines_per_file := some 1000 }

/-- C7 counterexample: at the metrics map with exactly `test_to_code_ratio = 0`
and `avg_lines_per_file = 1000`, `_calculate_code_quality_score` returns 2.5
(the two maximum tiers 1.5 and 1.0 and nothing else), which is not ≥ 3.0. -/
theorem C7_counterexample :
    codeMetricsZeroTests.test_to_code_ratio = some 0 ∧
    codeMetricsZeroTests.avg_lines_per_file = some 1000 ∧
    calculate_code_quality_score codeMetricsZeroTests = 5/2 ∧
    ¬(3 ≤ calculate_code_quality_score codeMetricsZeroTests) := by
  have h : calculate_code_quality_score codeMetricsZeroTests = 5/2 := by
    unfold calculate_code_quality_score codeMetricsZeroTests testCoveragePenalty fileSizePenalty
      largeFilesPenalty deepNestingPenalty flake8Penalty docPenalty
    norm_num
  exact ⟨rfl, rfl, h, by rw [h]; norm_num⟩

/-- C7 amended: for every code-analysis metrics map with `test_to_code_ratio
= 0` and `avg_lines_per_file = 1000`, both maximum penalty tiers trigger
(+1.5 for the test ratio below 0.1 and +1.0 for the average above 500 lines),
so `_calculate_code_quality_score` returns a value ≥ 2.5. -/
theorem C7_both_max_tiers_amended (m : CodeMetrics)
    (ht : m.test_to_code_ratio = some 0) (ha : m.avg_lines_per_file = some 1000) :
    5/2 ≤ calculate_code_quality_score m ∧
    testCoveragePenalty m = 1.5 ∧ fileSizePenalty m = 1.0 := by
  have h1 : testCoveragePenalty m = 1.5 := by
    unfold testCoveragePenalty; rw [ht]; norm_num
  have h2 : fileSizePenalty m = 1.0 := by
    unfold fileSizePenalty; rw [ha]; norm_num
  have h3 := largeFilesPenalty_nonneg m
  have h4 := deepNestingPenalty_nonneg m
  have h5 := flake8Penalty_nonneg m
  have h6 := docPenalty_nonneg m
  refine ⟨?_, h1, h2⟩
  unfold calculate_code_quality_score
  exact le_min (by linarith) (by norm_num)

/-- Witness for C7 at the concrete metrics map. -/
theorem C7_witness : 5/2 ≤ calculate_code_quality_score codeMetricsZeroTests :=
  (C7_both_max_tiers_amended codeMetricsZeroTests rfl rfl).1

/-! ## Scan-loop invariant: a file is counted as a test file only inside the
code-extension branch, and lines are only added there too. -/

/-- Invariant maintained by the scanning loop: test files never exceed code
files, and with no code files no lines have been counted. -/
def FsInv (c : FsCounts) : Prop :=
  c.test_files ≤ c.code_files ∧ (c.code_files = 0 → c.total_lines = 0)

lemma fileStructureStep_inv (ce tp cf ig : List String) (b : Bool) (c : FsCounts) (f : FileEntry)
    (h : FsInv c) : FsInv (fileStructureStep ce tp cf ig b c f) := by
  obtain ⟨h1, h2⟩ := h
  unfold FsInv fileStructureStep
  dsimp only
  split_ifs <;> simp_all <;> omega

lemma fsScan_inv (ce tp cf ig : List String) (b : Bool) (files : List FileEntry) (c : FsCounts)
    (h : FsInv c) : FsInv (files.foldl (fileStructureStep ce tp cf ig b) c) := by
  induction files generalizing c with
  | nil => exact h
  | cons f rest ih => exact ih _ (fileStructureStep_inv ce tp cf ig b c f h)

/-- C8: for every directory tree whose scan counts zero code files, both
analyzer variants report `test_to_code_ratio = 0` and `avg_lines_per_file
= 0`, and the guarded divisors `max(code_files, 1)` and
`max(code_files - test_files, 1)` equal 1, so no division by zero occurs. -/
theorem C8_zero_code_files_degrade (files : List FileEntry) :
    ((analyze_file_structure files).code_files = 0 →
      (analyze_file_structure files).test_to_code_ratio = 0 ∧
      (analyze_file_structure files).avg_lines_per_file = 0 ∧
      max (analyze_file_structure files).code_files 1 = 1) ∧
    ((enhanced_analyze_file_structure files).code_files = 0 →
      (enhanced_analyze_file_structure files).test_to_code_ratio = 0 ∧
      (enhanced_analyze_file_structure files).avg_lines_per_file = 0 ∧
      max (enhanced_analyze_file_structure files).code_files 1 = 1) := by
  have hA := fsScan_inv codeExtensionsA testPatternsA configExtensionsA ignoresA true files {}
    ⟨le_refl 0, fun _ => rfl⟩
  have hB := fsScan_inv codeExtensionsB testPatternsB configExtensionsB ignoresB false files {}
    ⟨le_refl 0, fun _ => rfl⟩
  unfold analyze_file_structure enhanced_analyze_file_structure
  dsimp only
  constructor
  · intro h0
    have ht : (files.foldl (fileStructureStep codeExtensionsA testPatternsA configExtensionsA
        ignoresA true) {}).test_files = 0 := Nat.le_zero.mp (hA.1.trans h0.le)
    have hl := hA.2 h0
    rw [h0, ht, hl]
    norm_num
  · intro h0
    have ht : (files.foldl (fileStructureStep codeExtensionsB testPatternsB configExtensionsB
        ignoresB false) {}).test_files = 0 := Nat.le_zero.mp (hB.1.trans h0.le)
    have hl := hB.2 h0
    rw [h0, ht, hl]
    norm_num

/-- Witness for C8: the empty tree has zero code files and both derived
metrics are 0. -/
theorem C8_witness :
    (analyze_file_structure []).test_to_code_ratio = 0 ∧
    (analyze_file_structure []).avg_lines_per_file = 0 ∧
    (enhanced_analyze_file_structure []).test_to_code_ratio = 0 ∧
    (enhanced_analyze_file_structure []).avg_lines_per_file = 0 := by
  have h := C8_zero_code_files_degrade []
  exact ⟨(h.1 rfl).1, (h.1 rfl).2.1, (h.2 rfl).1, (h.2 rfl).2.1⟩

/-! ## C9: the two `test_to_code_ratio` formulas -/

/-- A concrete tree with ten Python code files of ten lines each, five of
them matching the `test_` pattern in both variants: census code_files = 10,
test_files = 5. -/
def filesMixed : List FileEntry :=
  [⟨"test_a1.py", 10⟩, ⟨"test_a2.py", 10⟩, ⟨"test_a3.py", 10⟩, ⟨"test_a4.py", 10⟩,
   ⟨"test_a5.py", 10⟩, ⟨"main1.py", 10⟩, ⟨"main2.py", 10⟩, ⟨"main3.py", 10⟩,
   ⟨"main4.py", 10⟩, ⟨"main5.py", 10⟩]

/-- Evaluation lemma for `analyze_file_structure` given the loop result. -/
lemma analyze_evalA (files : List FileEntry) (c : FsCounts)
    (h : files.foldl (fileStructureStep codeExtensionsA testPatternsA configExtensionsA
      ignoresA true) {} = c) :
    analyze_file_structure files =
      { total_files := c.total_files, code_files := c.code_files, test_files := c.test_files,
        config_files := c.config_files, total_lines_of_code := c.total_lines,
        test_to_code_ratio := (c.test_files : ℚ) / ((max c.code_files 1 : ℕ) : ℚ),
        avg_lines_per_file := (c.total_lines : ℚ) / ((max c.code_files 1 : ℕ) : ℚ) } := by
  unfold analyze_file_structure
  rw [h]

/-- Evaluation lemma for `enhanced_analyze_file_structure` given the loop
result. -/
lemma analyze_evalB (files : List FileEntry) (c : FsCounts)
    (h : files.foldl (fileStructureStep codeExtensionsB testPatternsB configExtensionsB
      ignoresB false) {} = c) :
    enhanced_analyze_file_structure files =
      { total_files := c.total_files, code_files := c.code_files, test_files := c.test_files,
        config_files := c.config_files, total_lines_of_code := c.total_lines,
        test_to_code_ratio :=
          (c.test_files : ℚ) / ((max ((c.code_files : ℤ) - (c.test_files : ℤ)) 1 : ℤ) : ℚ),
        avg_lines_per_file := (c.total_lines : ℚ) / ((max c.code_files 1 : ℕ) : ℚ) } := by
  unfold enhanced_analyze_file_structure
  rw [h]

set_option maxRecDepth 20000 in
lemma filesMixed_foldA : filesMixed.foldl
    (fileStructureStep codeExtensionsA testPatternsA configExtensionsA ignoresA true) {} =
    ⟨10, 10, 5, 0, 100⟩ := by rfl

set_option maxRecDepth 20000 in
lemma filesMixed_foldB : filesMixed.foldl
    (fileStructureStep codeExtensionsB testPatternsB configExtensionsB ignoresB false) {} =
    ⟨10, 10, 5, 0, 100⟩ := by rfl

/-- C9: the two analyzer variants compute `test_to_code_ratio` by different
formulas (`test_files / max(code_files, 1)` versus
`test_files / max(code_files - test_files, 1)`): on a census of 10 code
files and 5 test files the first returns 1/2 and the second 1, so they
differ; and whenever both count zero test files the two ratios agree. -/
theorem C9_ratio_formulas_differ :
    (analyze_file_structure filesMixed).code_files = 10 ∧
    (analyze_file_structure filesMixed).test_files = 5 ∧
    (enhanced_analyze_file_structure filesMixed).code_files = 10 ∧
    (enhanced_analyze_file_structure filesMixed).test_files = 5 ∧
    (analyze_file_structure filesMixed).test_to_code_ratio = 1/2 ∧
    (enhanced_analyze_file_structure filesMixed).test_to_code_ratio = 1 ∧
    (analyze_file_structure filesMixed).test_to_code_ratio ≠
      (enhanced_analyze_file_structure filesMixed).test_to_code_ratio ∧
    (∀ files : List FileEntry, (analyze_file_structure files).test_files = 0 →
      (enhanced_analyze_file_structure files).test_files = 0 →
      (analyze_file_structure files).test_to_code_ratio =
        (enhanced_analyze_file_structure files).test_to_code_ratio) := by
  have hA := analyze_evalA filesMixed ⟨10, 10, 5, 0, 100⟩ filesMixed_foldA
  have hB := analyze_evalB filesMixed ⟨10, 10, 5, 0, 100⟩ filesMixed_foldB
  refine ⟨by rw [hA], by rw [hA], by rw [hB], by rw [hB], ?_, ?_, ?_, ?_⟩
  · rw [hA]; dsimp only; norm_num [max_def]
  · rw [hB]; dsimp only; norm_num [max_def]
  · rw [hA, hB]; dsimp only; norm_num [max_def]
  · intro files h1 h2
    unfold analyze_file_structure at h1 ⊢
    unfold enhanced_analyze_file_structure at h2 ⊢
    dsimp only at h1 h2 ⊢
    rw [h1, h2]
    norm_num

/-- Witness for C9's agreement clause: on the empty tree both variants count
zero test files and both ratios are equal. -/
theorem C9_witness :
    (analyze_file_structure []).test_to_code_ratio =
      (enhanced_analyze_file_structure []).test_to_code_ratio :=
  C9_ratio_formulas_differ.2.2.2.2.2.2.2 [] rfl rfl

/-- C10 (implicit invariant): in `CodeAnalyzer._analyze_file_structure` a
file is counted as a test file only after being counted as a code file, so
for every scanned tree `test_files ≤ code_files` and hence the reported
`test_to_code_ratio` is at most 1. -/
theorem C10_test_files_le_code_files (files : List FileEntry) :
    (analyze_file_structure files).test_files ≤ (analyze_file_structure files).code_files ∧
    (analyze_file_structure files).test_to_code_ratio ≤ 1 := by
  have h := fsScan_inv codeExtensionsA testPatternsA configExtensionsA ignoresA true files {}
    ⟨le_refl 0, fun _ => rfl⟩
  unfold analyze_file_structure
  dsimp only
  refine ⟨h.1, ?_⟩
  set c := files.foldl
    (fileStructureStep codeExtensionsA testPatternsA configExtensionsA ignoresA true) {} with hc
  have h1 : (c.test_files : ℚ) ≤ ((max c.code_files 1 : ℕ) : ℚ) := by
    exact_mod_cast le_trans h.1 (le_max_left _ _)
  have h2 : (0:ℚ) ≤ ((max c.code_files 1 : ℕ) : ℚ) := by positivity
  exact div_le_one_of_le₀ h1 h2
